import Mathlib

/-
  Shallow embedding of the request/connection lifecycle controller of
  `useDataFetcher` (src/src/useDataFetcher.ts, identical to src/unnamed/part_000).

  Modelling conventions:
  * Hook state cells (`useState`/`useRef`) become fields of an explicit state
    record; handlers read the current state at invocation time (the explicit
    state-machine reading of the hook, as the design notes in the spec call for).
  * Timers and transport completions are events of a small-step machine; the
    single-threaded event loop is the adversary choosing the event order.
  * `Date.now()` is an abstract millisecond clock: each event carries a `now`
    value, and a valid schedule uses non-decreasing `now` values (the clock can
    return the same value for two events inside the same millisecond).
  * Payloads are `Nat`; `JSON.stringify` is an injective serialisation.
-/

namespace DataFetcher

/-- Configuration knobs of the request controller: the retry budget (`retry`,
default 0) and the debounce delay (`debounce`, default 300 time units). -/
structure Config where
  retry : Nat := 0
  debounce : Nat := 300
  deriving Repr, DecidableEq

/-- The single pending debounce timer stored in `timeoutRef` (line 90): its
absolute fire time, the attempt counter passed to the deferred body, and the
`requestId` captured by the closure (lines 87-88). -/
structure DebTimer where
  fireAt : Nat
  attempts : Nat
  requestId : Nat
  deriving Repr, DecidableEq

/-- An in-flight transport call: the captured `currentRequestId`, the attempt
counter, and the generation of the `AbortController` it was created with
(line 97); a call is aborted exactly when its generation has been aborted. -/
structure Call where
  requestId : Nat
  attempts : Nat
  gen : Nat
  deriving Repr, DecidableEq

/-- State of the request controller: the published `RequestState`
(`data`/`loading`/`error`), the `latestRequestIdRef` cell, the `isFirst` flag,
the mount flag, the pending debounce timer, the un-cancellable retry timers
(absolute fire time paired with the attempt argument of the scheduled
`fetchData` call, line 126), the in-flight calls, the abort-controller
generation counters, and a log of the times at which transport calls were
issued (used to count and time attempts). -/
structure ReqState where
  data : Option Nat := none
  loading : Bool := false
  error : Option String := none
  latestRequestId : Nat := 0
  isFirst : Bool := true
  isMounted : Bool := true
  pendingTimer : Option DebTimer := none
  retryTimers : List (Nat × Nat) := []
  inflight : List Call := []
  abortGen : Nat := 0
  abortedUpTo : Nat := 0
  callLog : List Nat := []
  deriving Repr, DecidableEq

/-- Backoff delay of line 86: `Math.min(100 * 2 ** attempts, 5000)`. -/
def retryDelay (attempts : Nat) : Nat := min (100 * 2 ^ attempts) 5000

/-- Synchronous part of `fetchData` (lines 83-141): clear the pending debounce
timer, take `requestId = Date.now()`, schedule the deferred body after
`debounce` time units (zero delay when `isFirst` holds), then record the id in
`latestRequestIdRef` and clear `isFirst`. -/
def fetchData (cfg : Config) (attempts now : Nat) (s : ReqState) : ReqState :=
  let delay := if s.isFirst then 0 else cfg.debounce
  { s with
    pendingTimer := some { fireAt := now + delay, attempts := attempts, requestId := now },
    latestRequestId := now,
    isFirst := false }

/-- The debounce timer body up to the transport call (lines 90-116): if the
owner is unmounted, return; otherwise set `loading`, clear `error`, abort and
replace the shared abort controller, and start the transport call. Firing
consumes the timer. -/
def debounceBody (now : Nat) (s : ReqState) : ReqState :=
  match s.pendingTimer with
  | none => s
  | some t =>
    if t.fireAt = now then
      if s.isMounted then
        { s with
          pendingTimer := none,
          loading := true,
          error := none,
          abortedUpTo := s.abortGen,
          abortGen := s.abortGen + 1,
          inflight := s.inflight ++ [{ requestId := t.requestId, attempts := t.attempts, gen := s.abortGen + 1 }],
          callLog := s.callLog ++ [now] }
      else { s with pendingTimer := none }
    else s

/-- Outcome of a non-aborted transport call: success with a payload, or a
failure carrying the optional server message (`err.response?.data?.message`)
and the optional transport message (`err.message`). An aborted call always
completes as a cancellation, independent of this value. -/
inductive Outcome where
  | ok (payload : Nat)
  | err (respMsg errMsg : Option String)
  deriving Repr, DecidableEq

/-- Error-message selection of line 129:
`err.response?.data?.message || err.message || "Something went wrong"`. -/
def errMessage (respMsg errMsg : Option String) : String :=
  ((respMsg).orElse (fun _ => errMsg)).getD ("Something went wrong")

/-- The `finally` block (lines 132-135): set `loading` to false when the owner
is mounted and the completing call still carries the latest request id. -/
def applyFinally (c : Call) (s : ReqState) : ReqState :=
  if s.isMounted ∧ c.requestId = s.latestRequestId then { s with loading := false } else s

/-- Completion of the in-flight call with generation `gen` (lines 117-136).
An aborted call rejects as a cancellation: the catch returns (line 124) and
only the `finally` block runs. A live success publishes `data` under the
identity guard (lines 120-122). A live failure either schedules
`fetchData(attempts + 1)` after `retryDelay` when the retry budget remains
(line 126) or publishes the error under the identity guard (lines 128-130);
the `finally` block runs in every case. -/
def completeCall (cfg : Config) (gen : Nat) (res : Outcome) (now : Nat) (s : ReqState) : ReqState :=
  match s.inflight.find? (fun c => c.gen == gen) with
  | none => s
  | some c =>
    let s1 := { s with inflight := s.inflight.filter (fun c2 => c2.gen != gen) }
    if c.gen ≤ s1.abortedUpTo then
      applyFinally c s1
    else
      match res with
      | .ok v =>
        let s2 := if s1.isMounted ∧ c.requestId = s1.latestRequestId then { s1 with data := some v } else s1
        applyFinally c s2
      | .err respMsg errMsg =>
        let s2 :=
          if c.attempts < cfg.retry then
            { s1 with retryTimers := s1.retryTimers ++ [(now + retryDelay c.attempts, c.attempts + 1)] }
          else if s1.isMounted ∧ c.requestId = s1.latestRequestId then
            { s1 with error := some (errMessage respMsg errMsg) }
          else s1
        applyFinally c s2

/-- Firing of a retry timer scheduled at line 126: the timer whose fire time is
`now` is consumed and its callback `fetchData(attempts + 1)` runs. -/
def retryFire (cfg : Config) (now : Nat) (s : ReqState) : ReqState :=
  match s.retryTimers.find? (fun t => t.1 == now) with
  | none => s
  | some t =>
    fetchData cfg t.2 now { s with retryTimers := s.retryTimers.erase t }

/-- Events of the request controller: a `fetchData(0)` invocation (`refetch`,
auto-fetch, or an auto-refresh tick), the debounce timer firing, a retry timer
firing, a transport completion, the exposed `cancel()` (line 240), and the
teardown cleanup (lines 64-70). Each carries the clock value at which it runs
where the handler reads the clock. -/
inductive ReqEvent where
  | issue (now : Nat)
  | debFire (now : Nat)
  | retryTimerFire (now : Nat)
  | complete (gen : Nat) (res : Outcome) (now : Nat)
  | cancel
  | unmount
  deriving Repr, DecidableEq

/-- One step of the request controller. `cancel` aborts the current abort
controller; `unmount` clears the mount flag, aborts, and clears the debounce
timer. -/
def stepReq (cfg : Config) (e : ReqEvent) (s : ReqState) : ReqState :=
  match e with
  | .issue now => fetchData cfg 0 now s
  | .debFire now => debounceBody now s
  | .retryTimerFire now => retryFire cfg now s
  | .complete gen res now => completeCall cfg gen res now s
  | .cancel => { s with abortedUpTo := s.abortGen }
  | .unmount => { s with isMounted := false, abortedUpTo := s.abortGen, pendingTimer := none }

/-- Run of a finite event schedule from a state. -/
def runReq (cfg : Config) (evs : List ReqEvent) (s : ReqState) : ReqState :=
  evs.foldl (fun s e => stepReq cfg e s) s

/-- The controller's state at activation. -/
def initReq : ReqState := {}

/-- Ready state of the underlying `WebSocket` handle held in `wsRef`. Following
the protocol, by the time the error event fires the connection has failed, so
the handle is no longer open. The constructor `opened` renders the source's
`OPEN` ready state. -/
inductive SockReady where
  | connecting
  | opened
  | closed
  deriving Repr, DecidableEq

/-- The exposed `wsState` values; `opened` renders the source's "open" and
`error` the source's "error". -/
inductive ConnState where
  | connecting
  | opened
  | closed
  | error
  deriving Repr, DecidableEq

/-- State of the connection controller: the `wsRef` handle (its ready state,
or `none` when cleared), the published `wsState`, the latest inbound payload
`wsData`, the shared `error` field, the pending outbound queue
`wsMessagesQueue`, the reconnect counter local to the connection effect, the
mount flag, a log of serialized frames handed to `send`, the pending reconnect
timers (their delays, in scheduling order), and a log of every reconnect delay
ever scheduled (for counting reconnect attempts). -/
structure WsState where
  wsRef : Option SockReady := none
  wsState : ConnState := .connecting
  wsData : Option Nat := none
  error : Option String := none
  wsMessagesQueue : List Nat := []
  reconnectAttempts : Nat := 0
  isMounted : Bool := true
  sentLog : List String := []
  reconnectTimers : List Nat := []
  scheduledDelays : List Nat := []
  deriving Repr, DecidableEq

/-- Serialisation `JSON.stringify` of an outbound payload. -/
def stringifyMsg (m : Nat) : String := toString m

/-- The queue-flushing effect (lines 74-81): when the published state is open,
the handle's ready state is `OPEN`, and the queue is non-empty, every queued
message is serialized and sent in order and the queue is cleared. It reruns
after any change to `wsState` or the queue; running it after every step is
observationally the same since its guard only reads `wsState`, `wsRef` and the
queue. -/
def flushQueue (s : WsState) : WsState :=
  if s.wsState = .opened ∧ s.wsRef = some .opened ∧ s.wsMessagesQueue ≠ [] then
    { s with sentLog := s.sentLog ++ s.wsMessagesQueue.map stringifyMsg,
             wsMessagesQueue := [] }
  else s

/-- `connectWebSocket` (lines 164-199): a no-op when a handle already exists,
otherwise a fresh handle in the connecting ready state is stored. -/
def connectWebSocket (s : WsState) : WsState :=
  if s.wsRef.isSome then s else { s with wsRef := some .connecting }

/-- The `onopen` handler (lines 170-174): the handshake succeeded, so the
handle becomes open, the reconnect counter resets to zero, and `wsState`
becomes open. Fires only for a handle that was connecting. -/
def onopen (s : WsState) : WsState :=
  if s.wsRef = some .connecting then
    { s with wsRef := some .opened, reconnectAttempts := 0, wsState := .opened }
  else s

/-- The `onmessage` handler (lines 176-183): `decoded` is the result of
`JSON.parse` on the inbound payload (`none` when parsing throws). On success
the payload is published to `wsData` when mounted; on failure the catch sets
the error message. Fires only on an open handle. -/
def onmessage (decoded : Option Nat) (s : WsState) : WsState :=
  if s.wsRef = some .opened then
    match decoded with
    | some v => if s.isMounted then { s with wsData := some v } else s
    | none => { s with error := some ("Failed to parse WebSocket message") }
  else s

/-- The `onerror` handler (lines 185-188): the connection has failed (so the
handle's ready state is no longer open) and `wsState` becomes the error
state; the handler does not clear the handle — the separate close event does. -/
def onerror (s : WsState) : WsState :=
  if s.wsRef.isSome then { s with wsRef := some .closed, wsState := .error } else s

/-- The `onclose` handler (lines 190-198): clear the handle, set `wsState` to
closed, and, when the owner is mounted and the reconnect counter is below
`retry * 2` (line 162), increment the counter and schedule one reconnect after
`1000 * Math.min(reconnectAttempts, 30)` time units with the incremented
counter. -/
def onclose (retry : Nat) (s : WsState) : WsState :=
  if s.wsRef.isSome then
    let s1 := { s with wsRef := none, wsState := ConnState.closed }
    if s1.isMounted ∧ s1.reconnectAttempts < retry * 2 then
      let n := s1.reconnectAttempts + 1
      let d := 1000 * min n 30
      { s1 with reconnectAttempts := n,
                reconnectTimers := s1.reconnectTimers ++ [d],
                scheduledDelays := s1.scheduledDelays ++ [d] }
    else s1
  else s

/-- `sendMessage` (lines 205-212): when the handle exists and its ready state
is `OPEN`, serialize and send immediately; otherwise append the message to the
pending outbound queue. -/
def sendMessage (m : Nat) (s : WsState) : WsState :=
  if s.wsRef = some .opened then
    { s with sentLog := s.sentLog ++ [stringifyMsg m] }
  else
    { s with wsMessagesQueue := s.wsMessagesQueue ++ [m] }

/-- `closeWebSocket` (lines 214-220): when a handle is present, close it,
clear the ref, and set `wsState` to closed; otherwise do nothing. -/
def closeWebSocket (s : WsState) : WsState :=
  if s.wsRef.isSome then { s with wsRef := none, wsState := ConnState.closed } else s

/-- Firing of the earliest pending reconnect timer (line 196): the timer is
consumed and its callback `connectWebSocket` runs. A no-op when no reconnect
is pending. -/
def reconnectTimerFire (s : WsState) : WsState :=
  match s.reconnectTimers with
  | [] => s
  | _ :: rest => connectWebSocket { s with reconnectTimers := rest }

/-- Events of the connection controller: the activation-time
`connectWebSocket()` call (line 201), the four socket events delivered to the
handlers of the current handle, a reconnect timer firing, and the exposed
`sendMessage` and `closeWebSocket` operations. -/
inductive WsEvent where
  | connect
  | sockOpen
  | sockMessage (decoded : Option Nat)
  | sockError
  | sockClose
  | reconnect
  | sendMsg (m : Nat)
  | closeWs
  deriving Repr, DecidableEq

/-- One step of the connection controller: the event's handler followed by the
queue-flushing effect. -/
def stepWs (retry : Nat) (e : WsEvent) (s : WsState) : WsState :=
  flushQueue (match e with
  | .connect => connectWebSocket s
  | .sockOpen => onopen s
  | .sockMessage d => onmessage d s
  | .sockError => onerror s
  | .sockClose => onclose retry s
  | .reconnect => reconnectTimerFire s
  | .sendMsg m => sendMessage m s
  | .closeWs => closeWebSocket s)

/-- Run of a finite event schedule of the connection controller. -/
def runWs (retry : Nat) (evs : List WsEvent) (s : WsState) : WsState :=
  evs.foldl (fun s e => stepWs retry e s) s

/-- The connection controller's state at activation: no handle yet, `wsState`
initialized to connecting (line 58), empty queue and logs. -/
def initWs : WsState := {}

/-- States of the connection controller reachable from activation by any
event schedule. -/
inductive ReachableWs (retry : Nat) : WsState → Prop where
  | init : ReachableWs retry initWs
  | step : ∀ {s} (e : WsEvent), ReachableWs retry s → ReachableWs retry (stepWs retry e s)

/-- Default-shaped configuration with no retries: `retry = 0`,
`debounce = 300`. -/
def cfg300 : Config := { retry := 0, debounce := 300 }

/-- Configuration of the retry scenario: `retry = 2`, `debounce = 300`. -/
def cfgRetry2 : Config := { retry := 2, debounce := 300 }

/-- Schedule with two fetch invocations inside the same millisecond
(`Date.now() = 5` for both): the first invocation's timer fires and its
transport call starts; the second invocation is then issued (its debounce
timer is still pending); finally the first — now superseded — attempt's call
succeeds with payload 42. All clock values are non-decreasing. -/
def c1evs : List ReqEvent :=
  [.issue 5, .debFire 5, .issue 5, .complete 1 (.ok 42) 5]

/-- Schedule of the retry scenario with an always-failing transport whose
failures are delivered instantly: the initial invocation at time 0 fires with
zero delay (first call) and fails at time 0; the retry timer fires at
`0 + retryDelay 0 = 100`, the rescheduled invocation's debounce timer fires at
`100 + 300 = 400` and the call fails at 400; the next retry timer fires at
`400 + retryDelay 1 = 600`, the debounce timer at `600 + 300 = 900`, and the
final failure at 900 exhausts the budget. -/
def c2evs : List ReqEvent :=
  [.issue 0, .debFire 0, .complete 1 (.err none none) 0,
   .retryTimerFire 100, .debFire 400, .complete 2 (.err none none) 400,
   .retryTimerFire 600, .debFire 900, .complete 3 (.err none none) 900]

/-- Schedule of the cancellation scenario: a fetch is issued at time 3, its
timer fires and the transport call starts (`loading` becomes true), `cancel()`
is invoked, and then the aborted call's completion is processed. -/
def c5evs : List ReqEvent :=
  [.issue 3, .debFire 3, .cancel, .complete 1 (.ok 42) 3]

/-- Schedule of the reconnect scenario with `retry = 3`: the activation-time
connect, then seven consecutive close events, each of the first six followed
by the firing of the reconnect timer it scheduled. -/
def c3evs : List WsEvent :=
  [.connect,
   .sockClose, .reconnect, .sockClose, .reconnect, .sockClose, .reconnect,
   .sockClose, .reconnect, .sockClose, .reconnect, .sockClose, .reconnect,
   .sockClose]

theorem applyFinally_isFirst (c : Call) (s : ReqState) :
    (applyFinally c s).isFirst = s.isFirst := by
  unfold applyFinally
  split <;> rfl

theorem debounceBody_isFirst (now : Nat) (s : ReqState) :
    (debounceBody now s).isFirst = s.isFirst := by
  unfold debounceBody
  cases s.pendingTimer with
  | none => rfl
  | some t =>
    dsimp only
    split
    · split <;> rfl
    · rfl

theorem completeCall_isFirst (cfg : Config) (gen : Nat) (res : Outcome) (now : Nat)
    (s : ReqState) : (completeCall cfg gen res now s).isFirst = s.isFirst := by
  unfold completeCall
  cases s.inflight.find? (fun c => c.gen == gen) with
  | none => rfl
  | some c =>
    dsimp only
    split
    · rw [applyFinally_isFirst]
    · cases res with
      | ok v =>
        dsimp only
        rw [applyFinally_isFirst]
        split <;> rfl
      | err respMsg errMsg =>
        dsimp only
        rw [applyFinally_isFirst]
        split
        · rfl
        · split <;> rfl

theorem retryFire_isFirst (cfg : Config) (now : Nat) (s : ReqState)
    (h : s.isFirst = false) : (retryFire cfg now s).isFirst = false := by
  unfold retryFire
  cases s.retryTimers.find? (fun t => t.1 == now) with
  | none => exact h
  | some t => rfl

/-- C7: the very first fetch invocation of the controller's lifetime schedules
its network call with zero delay; every subsequent invocation (the `isFirst`
flag being false) schedules it after the configured debounce delay; and the
flag, once cleared by the first invocation, is never set again by any event. -/
theorem c7_first_call_zero_delay (cfg : Config) (a now : Nat) (s : ReqState) (e : ReqEvent) :
    (fetchData cfg a now s).pendingTimer
      = some { fireAt := now + (if s.isFirst then 0 else cfg.debounce),
               attempts := a, requestId := now } ∧
    (fetchData cfg a now s).isFirst = false ∧
    (s.isFirst = false → (stepReq cfg e s).isFirst = false) := by
  refine ⟨rfl, rfl, fun h => ?_⟩
  cases e with
  | issue now => rfl
  | debFire now => rw [stepReq, debounceBody_isFirst]; exact h
  | retryTimerFire now => exact retryFire_isFirst cfg now s h
  | complete gen res now => rw [stepReq, completeCall_isFirst]; exact h
  | cancel => exact h
  | unmount => exact h

/-- Witness for C7: with the default debounce of 300, the first invocation at
time 7 fires at time 7 (zero delay), the next invocation at time 9 fires at
time 309 (debounce delay), and the flag stays cleared across a further event. -/
theorem c7_first_call_zero_delay_witness :
    (fetchData cfg300 0 7 initReq).pendingTimer
      = some { fireAt := 7, attempts := 0, requestId := 7 } ∧
    (fetchData cfg300 0 9 (fetchData cfg300 0 7 initReq)).pendingTimer
      = some { fireAt := 309, attempts := 0, requestId := 9 } ∧
    (stepReq cfg300 .cancel (fetchData cfg300 0 7 initReq)).isFirst = false := by
  refine ⟨?_, ?_, ?_⟩
  · exact (c7_first_call_zero_delay cfg300 0 7 initReq .cancel).1
  · exact (c7_first_call_zero_delay cfg300 0 9 (fetchData cfg300 0 7 initReq) .cancel).1
  · exact (c7_first_call_zero_delay cfg300 0 7 (fetchData cfg300 0 7 initReq) .cancel).2.2 (by decide)

/-- C1 (code-bug evidence): two fetch invocations inside the same millisecond
both receive `requestId = Date.now() = 5`, so the identifier is not unique per
attempt. After the second invocation is issued, the first attempt's call — now
superseded — is still in flight and carries the same identifier the second
invocation recorded as latest; its success therefore passes the identity guard
and publishes its payload 42, although it is not the most-recently-issued
attempt. -/
theorem c1_same_millisecond_stale_publish :
    (runReq cfg300 (c1evs.take 3) initReq).inflight
      = [{ requestId := 5, attempts := 0, gen := 1 }] ∧
    (runReq cfg300 (c1evs.take 3) initReq).latestRequestId = 5 ∧
    (runReq cfg300 (c1evs.take 3) initReq).data = none ∧
    (runReq cfg300 c1evs initReq).data = some 42 := by decide

/-- Counterexample for C2: with `retry = 2`, `debounce = 300` and an
always-failing transport whose failures arrive instantly, the three transport
calls are issued at times 0, 400 and 900 — each retry waits the debounce delay
on top of its retry delay — not at times 0, 100 and 300 as the claim's
"delays 100, 200 with no additional debounce wait" would give. -/
theorem c2_retries_not_debounce_free :
    (runReq cfgRetry2 c2evs initReq).callLog = [0, 400, 900] ∧
    (runReq cfgRetry2 c2evs initReq).callLog ≠ [0, 100, 300] := by decide

/-- C2 as amended: with `retry = 2` and an always-failing transport there are
exactly 3 transport attempts; each failure with remaining budget schedules the
next invocation after `retryDelay = min(100 * 2 ^ attempt, 5000)` (timers at
0 + 100 and 400 + 200), the rescheduled invocation then additionally waits the
debounce delay of 300 before its transport call (calls at 0, 400, 900), and
the final failure surfaces the error. -/
theorem c2_three_attempts_then_error :
    (runReq cfgRetry2 c2evs initReq).callLog = [0, 400, 900] ∧
    (runReq cfgRetry2 c2evs initReq).callLog.length = 3 ∧
    (runReq cfgRetry2 (c2evs.take 3) initReq).retryTimers = [(0 + retryDelay 0, 1)] ∧
    (runReq cfgRetry2 (c2evs.take 6) initReq).retryTimers = [(400 + retryDelay 1, 2)] ∧
    (runReq cfgRetry2 c2evs initReq).error = some ("Something went wrong") ∧
    (runReq cfgRetry2 c2evs initReq).loading = false := by decide

/-- Counterexample for C5: a fetch fires at time 3 (`loading` becomes true),
`cancel()` is invoked, and the aborted attempt's completion is processed. The
catch drops the cancellation, but the `finally` block still passes the
identity guard and sets `loading` to false, so `loading` does not hold the
value it held before the cancellation; `data` and `error` are unchanged. -/
theorem c5_cancelled_completion_clears_loading :
    (runReq cfg300 (c5evs.take 2) initReq).loading = true ∧
    (runReq cfg300 c5evs initReq).loading = false ∧
    (runReq cfg300 c5evs initReq).data = (runReq cfg300 (c5evs.take 2) initReq).data ∧
    (runReq cfg300 c5evs initReq).error = (runReq cfg300 (c5evs.take 2) initReq).error := by
  decide

theorem completeCall_aborted (cfg : Config) (gen : Nat) (res : Outcome) (now : Nat)
    (s : ReqState) (h : ∀ c ∈ s.inflight, c.gen ≤ s.abortedUpTo) :
    (completeCall cfg gen res now s).data = s.data ∧
    (completeCall cfg gen res now s).error = s.error ∧
    ((completeCall cfg gen res now s).loading = false ∨
     (completeCall cfg gen res now s).loading = s.loading) := by
  unfold completeCall
  split
  · exact ⟨rfl, rfl, Or.inr rfl⟩
  · next c hf =>
    have hle : c.gen ≤ s.abortedUpTo := h c (List.mem_of_find?_eq_some hf)
    dsimp only
    rw [if_pos hle]
    unfold applyFinally
    split
    · exact ⟨rfl, rfl, Or.inl rfl⟩
    · exact ⟨rfl, rfl, Or.inr rfl⟩

/-- C5 as amended: `cancel()` itself changes none of the published fields, and
the subsequent completion of the (now aborted) attempt leaves `data` and
`error` exactly as they were, while `loading` is either left unchanged or set
to false by the `finally` block. The hypothesis — every in-flight call's
abort-controller generation is at most the current generation — holds in every
reachable state, since a call is created with the then-current generation. -/
theorem c5_amended_cancel_preserves_data_error (cfg : Config) (gen now : Nat)
    (res : Outcome) (s : ReqState)
    (h : ∀ c ∈ s.inflight, c.gen ≤ s.abortGen) :
    (stepReq cfg .cancel s).data = s.data ∧
    (stepReq cfg .cancel s).error = s.error ∧
    (stepReq cfg .cancel s).loading = s.loading ∧
    (stepReq cfg (.complete gen res now) (stepReq cfg .cancel s)).data = s.data ∧
    (stepReq cfg (.complete gen res now) (stepReq cfg .cancel s)).error = s.error ∧
    ((stepReq cfg (.complete gen res now) (stepReq cfg .cancel s)).loading = false ∨
     (stepReq cfg (.complete gen res now) (stepReq cfg .cancel s)).loading = s.loading) := by
  refine ⟨rfl, rfl, rfl, ?_⟩
  have H := completeCall_aborted cfg gen res now { s with abortedUpTo := s.abortGen }
      (fun c hc => h c hc)
  exact ⟨H.1, H.2.1, H.2.2⟩

/-- Witness for C5's amended statement at the concrete cancellation trace. -/
theorem c5_amended_cancel_preserves_data_error_witness :
    (stepReq cfg300 (.complete 1 (.ok 42) 3)
        (stepReq cfg300 .cancel (runReq cfg300 (c5evs.take 2) initReq))).data
      = (runReq cfg300 (c5evs.take 2) initReq).data ∧
    (stepReq cfg300 (.complete 1 (.ok 42) 3)
        (stepReq cfg300 .cancel (runReq cfg300 (c5evs.take 2) initReq))).error
      = (runReq cfg300 (c5evs.take 2) initReq).error := by
  have H := c5_amended_cancel_preserves_data_error cfg300 1 3 (.ok 42)
      (runReq cfg300 (c5evs.take 2) initReq) (by decide)
  exact ⟨H.2.2.2.1, H.2.2.2.2.1⟩

theorem flushQueue_wsRef (s : WsState) : (flushQueue s).wsRef = s.wsRef := by
  unfold flushQueue; split <;> rfl

theorem flushQueue_wsState (s : WsState) : (flushQueue s).wsState = s.wsState := by
  unfold flushQueue; split <;> rfl

theorem flushQueue_wsData (s : WsState) : (flushQueue s).wsData = s.wsData := by
  unfold flushQueue; split <;> rfl

theorem flushQueue_error (s : WsState) : (flushQueue s).error = s.error := by
  unfold flushQueue; split <;> rfl

theorem flushQueue_reconnectAttempts (s : WsState) :
    (flushQueue s).reconnectAttempts = s.reconnectAttempts := by
  unfold flushQueue; split <;> rfl

theorem flushQueue_reconnectTimers (s : WsState) :
    (flushQueue s).reconnectTimers = s.reconnectTimers := by
  unfold flushQueue; split <;> rfl

theorem flushQueue_scheduledDelays (s : WsState) :
    (flushQueue s).scheduledDelays = s.scheduledDelays := by
  unfold flushQueue; split <;> rfl

theorem flushQueue_eq_of_ref_ne (s : WsState) (h : s.wsRef ≠ some SockReady.opened) :
    flushQueue s = s := by
  unfold flushQueue
  rw [if_neg]
  rintro ⟨-, hc, -⟩
  exact h hc

theorem connectWebSocket_cases (s : WsState) :
    connectWebSocket s = s ∨
    connectWebSocket s = { s with wsRef := some SockReady.connecting } := by
  unfold connectWebSocket
  split
  · exact Or.inl rfl
  · exact Or.inr rfl

theorem onopen_cases (s : WsState) :
    onopen s = { s with wsRef := some SockReady.opened, reconnectAttempts := 0,
                        wsState := ConnState.opened } ∨
    onopen s = s := by
  unfold onopen
  split
  · exact Or.inl rfl
  · exact Or.inr rfl

theorem onmessage_frame (d : Option Nat) (s : WsState) :
    (onmessage d s).wsRef = s.wsRef ∧ (onmessage d s).wsState = s.wsState ∧
    (onmessage d s).wsMessagesQueue = s.wsMessagesQueue ∧
    (onmessage d s).reconnectTimers = s.reconnectTimers := by
  unfold onmessage
  split
  · cases d with
    | some v => dsimp only; split <;> exact ⟨rfl, rfl, rfl, rfl⟩
    | none => exact ⟨rfl, rfl, rfl, rfl⟩
  · exact ⟨rfl, rfl, rfl, rfl⟩

theorem onerror_cases (s : WsState) :
    onerror s = { s with wsRef := some SockReady.closed, wsState := ConnState.error } ∨
    onerror s = s := by
  unfold onerror
  split
  · exact Or.inl rfl
  · exact Or.inr rfl

theorem onclose_cases (retry : Nat) (s : WsState) :
    (onclose retry s).wsRef = none ∨ onclose retry s = s := by
  unfold onclose
  split
  · dsimp only; split <;> exact Or.inl rfl
  · exact Or.inr rfl

theorem onclose_wsMessagesQueue (retry : Nat) (s : WsState) :
    (onclose retry s).wsMessagesQueue = s.wsMessagesQueue := by
  unfold onclose
  split
  · dsimp only; split <;> rfl
  · rfl

theorem sendMessage_frame (m : Nat) (s : WsState) :
    (sendMessage m s).wsRef = s.wsRef ∧ (sendMessage m s).wsState = s.wsState ∧
    (sendMessage m s).reconnectTimers = s.reconnectTimers := by
  unfold sendMessage
  split <;> exact ⟨rfl, rfl, rfl⟩

theorem closeWebSocket_cases (s : WsState) :
    (closeWebSocket s).wsRef = none ∨ closeWebSocket s = s := by
  unfold closeWebSocket
  split
  · exact Or.inl rfl
  · exact Or.inr rfl

theorem closeWebSocket_wsMessagesQueue (s : WsState) :
    (closeWebSocket s).wsMessagesQueue = s.wsMessagesQueue := by
  unfold closeWebSocket
  split <;> rfl

theorem closeWebSocket_of_ref_none (s : WsState) (h : s.wsRef = none) :
    closeWebSocket s = s := by
  unfold closeWebSocket
  rw [if_neg]
  rw [h]
  simp

theorem closeWebSocket_of_ref_some (s : WsState) (v : SockReady) (h : s.wsRef = some v) :
    closeWebSocket s = { s with wsRef := none, wsState := ConnState.closed } := by
  unfold closeWebSocket
  rw [if_pos]
  rw [h]
  rfl

theorem reconnectTimerFire_cases (s : WsState) :
    ((reconnectTimerFire s).wsRef = s.wsRef ∧ (reconnectTimerFire s).wsState = s.wsState) ∨
    ((reconnectTimerFire s).wsRef = some SockReady.connecting ∧
     (reconnectTimerFire s).wsState = s.wsState) := by
  unfold reconnectTimerFire
  cases s.reconnectTimers with
  | nil => exact Or.inl ⟨rfl, rfl⟩
  | cons d rest =>
    dsimp only
    rcases connectWebSocket_cases { s with reconnectTimers := rest } with hc | hc <;> rw [hc]
    · exact Or.inl ⟨rfl, rfl⟩
    · exact Or.inr ⟨rfl, rfl⟩

theorem onopen_of_not_connecting (s : WsState) (h : s.wsRef ≠ some SockReady.connecting) :
    onopen s = s := by
  unfold onopen
  rw [if_neg h]

theorem onmessage_of_not_open (d : Option Nat) (s : WsState)
    (h : s.wsRef ≠ some SockReady.opened) : onmessage d s = s := by
  unfold onmessage
  rw [if_neg h]

theorem onerror_of_ref_none (s : WsState) (h : s.wsRef = none) : onerror s = s := by
  unfold onerror
  rw [if_neg]
  rw [h]
  simp

theorem onclose_of_ref_none (retry : Nat) (s : WsState) (h : s.wsRef = none) :
    onclose retry s = s := by
  unfold onclose
  rw [if_neg]
  rw [h]
  simp

theorem reconnectTimerFire_of_nil (s : WsState) (h : s.reconnectTimers = []) :
    reconnectTimerFire s = s := by
  unfold reconnectTimerFire
  rw [h]

theorem sendMessage_of_not_open (m : Nat) (s : WsState)
    (h : s.wsRef ≠ some SockReady.opened) :
    sendMessage m s = { s with wsMessagesQueue := s.wsMessagesQueue ++ [m] } := by
  unfold sendMessage
  rw [if_neg h]

theorem stepWs_open_handle (retry : Nat) (e : WsEvent) (s : WsState)
    (ih : s.wsRef = some SockReady.opened → s.wsState = ConnState.opened)
    (h0 : (stepWs retry e s).wsRef = some SockReady.opened) :
    (stepWs retry e s).wsState = ConnState.opened := by
  cases e <;> simp only [stepWs] at h0 ⊢ <;> rw [flushQueue_wsRef] at h0 <;>
    rw [flushQueue_wsState]
  case connect =>
    rcases connectWebSocket_cases s with hc | hc <;> rw [hc] at h0 ⊢
    · exact ih h0
    · simp at h0
  case sockOpen =>
    rcases onopen_cases s with hc | hc
    · rw [hc] at h0 ⊢
    · rw [hc] at h0 ⊢
      exact ih h0
  case sockMessage d =>
    have hf := onmessage_frame d s
    rw [hf.1] at h0
    rw [hf.2.1]
    exact ih h0
  case sockError =>
    rcases onerror_cases s with hc | hc <;> rw [hc] at h0 ⊢
    · simp at h0
    · exact ih h0
  case sockClose =>
    rcases onclose_cases retry s with hc | hc
    · rw [hc] at h0; simp at h0
    · rw [hc] at h0 ⊢; exact ih h0
  case reconnect =>
    rcases reconnectTimerFire_cases s with ⟨ha, hb⟩ | ⟨ha, hb⟩ <;> rw [ha] at h0 <;> rw [hb]
    · exact ih h0
    · simp at h0
  case sendMsg m =>
    have hf := sendMessage_frame m s
    rw [hf.1] at h0
    rw [hf.2.1]
    exact ih h0
  case closeWs =>
    rcases closeWebSocket_cases s with hc | hc
    · rw [hc] at h0; simp at h0
    · rw [hc] at h0 ⊢; exact ih h0

theorem reachable_open_handle (retry : Nat) {s : WsState} (h : ReachableWs retry s) :
    s.wsRef = some SockReady.opened → s.wsState = ConnState.opened := by
  induction h with
  | init => intro h0; exact absurd h0 (by simp [initWs])
  | step e hr ih => exact stepWs_open_handle _ e _ ih

theorem flush_on_open (retry : Nat) (s : WsState) (h : s.wsRef = some SockReady.connecting) :
    (stepWs retry .sockOpen s).sentLog = s.sentLog ++ s.wsMessagesQueue.map stringifyMsg ∧
    (stepWs retry .sockOpen s).wsMessagesQueue = [] := by
  have hopen : onopen s =
      { s with wsRef := some SockReady.opened, reconnectAttempts := 0,
               wsState := ConnState.opened } := by
    unfold onopen; rw [if_pos h]
  show (flushQueue (onopen s)).sentLog = _ ∧ (flushQueue (onopen s)).wsMessagesQueue = []
  rw [hopen]
  unfold flushQueue
  cases hq : s.wsMessagesQueue with
  | nil =>
    rw [if_neg]
    · constructor
      · simp
      · rfl
    · rintro ⟨-, -, h3⟩
      exact h3 rfl
  | cons a as =>
    rw [if_pos]
    · exact ⟨rfl, rfl⟩
    · exact ⟨rfl, rfl, by simp⟩

theorem onclose_budget (retry : Nat) (s : WsState) (hr : s.wsRef.isSome = true)
    (hm : s.isMounted = true) (hlt : s.reconnectAttempts < retry * 2) :
    onclose retry s =
      { s with wsRef := none, wsState := ConnState.closed,
               reconnectAttempts := s.reconnectAttempts + 1,
               reconnectTimers := s.reconnectTimers ++ [1000 * min (s.reconnectAttempts + 1) 30],
               scheduledDelays := s.scheduledDelays ++ [1000 * min (s.reconnectAttempts + 1) 30] } := by
  unfold onclose
  rw [if_pos hr]
  dsimp only
  rw [if_pos]
  exact ⟨hm, hlt⟩

theorem onclose_exhausted (retry : Nat) (s : WsState) (hr : s.wsRef.isSome = true)
    (hge : ¬ s.reconnectAttempts < retry * 2) :
    onclose retry s = { s with wsRef := none, wsState := ConnState.closed } := by
  unfold onclose
  rw [if_pos hr]
  dsimp only
  rw [if_neg]
  rintro ⟨-, hlt⟩
  exact hge hlt

/-- C3: while the owner is mounted and a handle exists, a close event with the
reconnect counter below `retry * 2` increments the counter and schedules
exactly one reconnect after `1000 * min(counter, 30)` time units (the
incremented counter); a close with the counter at or above the bound schedules
nothing and leaves the counter alone; a successful open resets the counter to
zero; and in the concrete `retry = 3` run, seven consecutive closes schedule
exactly the six delays 1000,...,6000, the seventh close adding none, after
which no reconnect timer is pending. -/
theorem c3_reconnect_budget (retry : Nat) (s : WsState)
    (hm : s.isMounted = true) (hr : s.wsRef.isSome = true) :
    (s.reconnectAttempts < retry * 2 →
      (stepWs retry .sockClose s).reconnectAttempts = s.reconnectAttempts + 1 ∧
      (stepWs retry .sockClose s).scheduledDelays
        = s.scheduledDelays ++ [1000 * min (s.reconnectAttempts + 1) 30] ∧
      (stepWs retry .sockClose s).reconnectTimers
        = s.reconnectTimers ++ [1000 * min (s.reconnectAttempts + 1) 30]) ∧
    (¬ s.reconnectAttempts < retry * 2 →
      (stepWs retry .sockClose s).reconnectAttempts = s.reconnectAttempts ∧
      (stepWs retry .sockClose s).scheduledDelays = s.scheduledDelays ∧
      (stepWs retry .sockClose s).reconnectTimers = s.reconnectTimers) ∧
    (s.wsRef = some SockReady.connecting →
      (stepWs retry .sockOpen s).reconnectAttempts = 0) ∧
    (runWs 3 c3evs initWs).scheduledDelays = [1000, 2000, 3000, 4000, 5000, 6000] ∧
    (runWs 3 (c3evs.dropLast) initWs).scheduledDelays
      = [1000, 2000, 3000, 4000, 5000, 6000] ∧
    (runWs 3 c3evs initWs).reconnectTimers = [] := by
  refine ⟨fun hlt => ?_, fun hge => ?_, fun hconn => ?_, by decide, by decide, by decide⟩
  · have hc := onclose_budget retry s hr hm hlt
    show (flushQueue (onclose retry s)).reconnectAttempts = _ ∧
         (flushQueue (onclose retry s)).scheduledDelays = _ ∧
         (flushQueue (onclose retry s)).reconnectTimers = _
    rw [flushQueue_reconnectAttempts, flushQueue_scheduledDelays, flushQueue_reconnectTimers, hc]
    exact ⟨rfl, rfl, rfl⟩
  · have hc := onclose_exhausted retry s hr hge
    show (flushQueue (onclose retry s)).reconnectAttempts = _ ∧
         (flushQueue (onclose retry s)).scheduledDelays = _ ∧
         (flushQueue (onclose retry s)).reconnectTimers = _
    rw [flushQueue_reconnectAttempts, flushQueue_scheduledDelays, flushQueue_reconnectTimers, hc]
    exact ⟨rfl, rfl, rfl⟩
  · have hc : onopen s =
        { s with wsRef := some SockReady.opened, reconnectAttempts := 0,
                 wsState := ConnState.opened } := by
      unfold onopen; rw [if_pos hconn]
    show (flushQueue (onopen s)).reconnectAttempts = 0
    rw [flushQueue_reconnectAttempts, hc]

/-- Witness for C3: from the freshly connected state with `retry = 3`, the
first close increments the counter to 1 and schedules one reconnect after
1000 time units. -/
theorem c3_reconnect_budget_witness :
    (stepWs 3 .sockClose (stepWs 3 .connect initWs)).reconnectAttempts = 1 ∧
    (stepWs 3 .sockClose (stepWs 3 .connect initWs)).scheduledDelays = [1000] := by
  have H := c3_reconnect_budget 3 (stepWs 3 .connect initWs) (by decide) (by decide)
  have H1 := H.1 (by decide)
  refine ⟨H1.1, ?_⟩
  rw [H1.2.1]
  decide

/-- C4: in any reachable state whose published connection state is not open, a
message handed to `sendMessage` is appended to the pending outbound queue (and
nothing is sent); and when the open event arrives on a connecting handle,
every queued message is serialized and sent once, in FIFO order, and the queue
is cleared. -/
theorem c4_queue_until_open (retry m : Nat) (s s2 : WsState)
    (h : ReachableWs retry s) (hns : s.wsState ≠ ConnState.opened)
    (h2 : s2.wsRef = some SockReady.connecting) :
    (stepWs retry (.sendMsg m) s).wsMessagesQueue = s.wsMessagesQueue ++ [m] ∧
    (stepWs retry (.sendMsg m) s).sentLog = s.sentLog ∧
    (stepWs retry .sockOpen s2).sentLog = s2.sentLog ++ s2.wsMessagesQueue.map stringifyMsg ∧
    (stepWs retry .sockOpen s2).wsMessagesQueue = [] := by
  have hro : ¬ s.wsRef = some SockReady.opened :=
    fun hh => hns (reachable_open_handle retry h hh)
  have hsend := sendMessage_of_not_open m s hro
  have hfl : flushQueue ({ s with wsMessagesQueue := s.wsMessagesQueue ++ [m] } : WsState)
      = { s with wsMessagesQueue := s.wsMessagesQueue ++ [m] } :=
    flushQueue_eq_of_ref_ne _ hro
  have hq := flush_on_open retry s2 h2
  refine ⟨?_, ?_, hq.1, hq.2⟩
  · show (flushQueue (sendMessage m s)).wsMessagesQueue = _
    rw [hsend, hfl]
  · show (flushQueue (sendMessage m s)).sentLog = _
    rw [hsend, hfl]

/-- Witness for C4: in the reachable connecting state, a sent message is
queued, and the open event then delivers it exactly once, serialized. -/
theorem c4_queue_until_open_witness :
    (stepWs 0 (.sendMsg 7) (stepWs 0 .connect initWs)).wsMessagesQueue = [7] ∧
    (stepWs 0 (.sendMsg 7) (stepWs 0 .connect initWs)).sentLog = [] ∧
    (stepWs 0 .sockOpen (stepWs 0 (.sendMsg 7) (stepWs 0 .connect initWs))).sentLog
      = [stringifyMsg 7] ∧
    (stepWs 0 .sockOpen (stepWs 0 (.sendMsg 7) (stepWs 0 .connect initWs))).wsMessagesQueue
      = [] := by
  have H1 := c4_queue_until_open 0 7 (stepWs 0 .connect initWs)
      (stepWs 0 (.sendMsg 7) (stepWs 0 .connect initWs))
      (ReachableWs.step .connect ReachableWs.init) (by decide) (by decide)
  refine ⟨?_, H1.2.1, ?_, H1.2.2.2⟩
  · rw [H1.1]; decide
  · rw [H1.2.2.1]; decide

/-- C6: an inbound message whose payload fails to parse publishes the parse
error message while leaving the connection state, the handle, and the latest
inbound payload untouched (in particular the state stays open when it was
open); the handler catches the failure, so no exception escapes the
controller. -/
theorem c6_parse_failure (retry : Nat) (s : WsState) (h : s.wsRef = some SockReady.opened) :
    (stepWs retry (.sockMessage none) s).error = some ("Failed to parse WebSocket message") ∧
    (stepWs retry (.sockMessage none) s).wsState = s.wsState ∧
    (stepWs retry (.sockMessage none) s).wsRef = s.wsRef ∧
    (stepWs retry (.sockMessage none) s).wsData = s.wsData := by
  have hmsg : onmessage none s =
      { s with error := some ("Failed to parse WebSocket message") } := by
    unfold onmessage
    rw [if_pos h]
  show (flushQueue (onmessage none s)).error = _ ∧
       (flushQueue (onmessage none s)).wsState = _ ∧
       (flushQueue (onmessage none s)).wsRef = _ ∧
       (flushQueue (onmessage none s)).wsData = _
  rw [flushQueue_error, flushQueue_wsState, flushQueue_wsRef, flushQueue_wsData, hmsg]
  exact ⟨rfl, rfl, rfl, rfl⟩

/-- Witness for C6: on the concrete open connection, a malformed payload sets
the error message and the state stays open. -/
theorem c6_parse_failure_witness :
    (stepWs 0 (.sockMessage none) (runWs 0 [.connect, .sockOpen] initWs)).error
      = some ("Failed to parse WebSocket message") ∧
    (stepWs 0 (.sockMessage none) (runWs 0 [.connect, .sockOpen] initWs)).wsState
      = ConnState.opened := by
  have H := c6_parse_failure 0 (runWs 0 [.connect, .sockOpen] initWs) (by decide)
  refine ⟨H.1, ?_⟩
  rw [H.2.1]
  decide

/-- C8: `closeWebSocket` (as exposed, including the rerun of the flushing
effect) closes and clears a present handle and sets the connection state to
closed; with no handle present it changes nothing; and it is idempotent: two
consecutive calls leave exactly the state one call leaves. -/
theorem c8_closeWebSocket_idempotent (retry : Nat) (s : WsState) :
    stepWs retry .closeWs s = closeWebSocket s ∧
    (s.wsRef.isSome = true →
      (closeWebSocket s).wsRef = none ∧ (closeWebSocket s).wsState = ConnState.closed) ∧
    (s.wsRef = none → closeWebSocket s = s) ∧
    closeWebSocket (closeWebSocket s) = closeWebSocket s := by
  cases hr : s.wsRef with
  | none =>
    have h1 := closeWebSocket_of_ref_none s hr
    refine ⟨?_, fun hs => ?_, fun _ => h1, ?_⟩
    · show flushQueue (closeWebSocket s) = closeWebSocket s
      rw [h1]
      exact flushQueue_eq_of_ref_ne s (by rw [hr]; simp)
    · simp at hs
    · rw [h1, h1]
  | some v =>
    have h1 := closeWebSocket_of_ref_some s v hr
    refine ⟨?_, fun _ => ?_, fun hn => ?_, ?_⟩
    · show flushQueue (closeWebSocket s) = closeWebSocket s
      rw [h1]
      exact flushQueue_eq_of_ref_ne _ (by simp)
    · rw [h1]
      exact ⟨rfl, rfl⟩
    · simp at hn
    · rw [h1]
      exact closeWebSocket_of_ref_none _ rfl

/-- Witness for C8 on the concrete connected state. -/
theorem c8_closeWebSocket_idempotent_witness :
    (closeWebSocket (runWs 0 [.connect] initWs)).wsRef = none ∧
    (closeWebSocket (runWs 0 [.connect] initWs)).wsState = ConnState.closed ∧
    closeWebSocket (closeWebSocket (runWs 0 [.connect] initWs))
      = closeWebSocket (runWs 0 [.connect] initWs) ∧
    closeWebSocket (runWs 0 [.closeWs] initWs) = runWs 0 [.closeWs] initWs := by
  have H := c8_closeWebSocket_idempotent 0 (runWs 0 [.connect] initWs)
  have H2 := c8_closeWebSocket_idempotent 0 (runWs 0 [.closeWs] initWs)
  exact ⟨(H.2.1 (by decide)).1, (H.2.1 (by decide)).2, H.2.2.2, H2.2.2.1 (by decide)⟩

theorem runWs_no_connect (retry : Nat) (evs : List WsEvent) (s : WsState)
    (hP : s.wsRef = none ∧ s.wsState = ConnState.connecting ∧ s.reconnectTimers = [])
    (h : WsEvent.connect ∉ evs) :
    (runWs retry evs s).wsRef = none ∧
    (runWs retry evs s).wsState = ConnState.connecting ∧
    (runWs retry evs s).reconnectTimers = [] := by
  induction evs generalizing s with
  | nil => exact hP
  | cons e rest ih =>
    have hne : e ≠ .connect := fun he => h (he ▸ List.mem_cons_self e rest)
    have hrest : WsEvent.connect ∉ rest := fun hm => h (List.mem_cons_of_mem e hm)
    obtain ⟨h1, h2, h3⟩ := hP
    have hro : ¬ s.wsRef = some SockReady.opened := by rw [h1]; simp
    refine ih _ ?_ hrest
    cases e with
    | connect => exact absurd rfl hne
    | sockOpen =>
      show (flushQueue (onopen s)).wsRef = none ∧
           (flushQueue (onopen s)).wsState = ConnState.connecting ∧
           (flushQueue (onopen s)).reconnectTimers = []
      rw [flushQueue_wsRef, flushQueue_wsState, flushQueue_reconnectTimers,
          onopen_of_not_connecting s (by rw [h1]; simp)]
      exact ⟨h1, h2, h3⟩
    | sockMessage d =>
      show (flushQueue (onmessage d s)).wsRef = none ∧
           (flushQueue (onmessage d s)).wsState = ConnState.connecting ∧
           (flushQueue (onmessage d s)).reconnectTimers = []
      rw [flushQueue_wsRef, flushQueue_wsState, flushQueue_reconnectTimers,
          onmessage_of_not_open d s hro]
      exact ⟨h1, h2, h3⟩
    | sockError =>
      show (flushQueue (onerror s)).wsRef = none ∧
           (flushQueue (onerror s)).wsState = ConnState.connecting ∧
           (flushQueue (onerror s)).reconnectTimers = []
      rw [flushQueue_wsRef, flushQueue_wsState, flushQueue_reconnectTimers,
          onerror_of_ref_none s h1]
      exact ⟨h1, h2, h3⟩
    | sockClose =>
      show (flushQueue (onclose retry s)).wsRef = none ∧
           (flushQueue (onclose retry s)).wsState = ConnState.connecting ∧
           (flushQueue (onclose retry s)).reconnectTimers = []
      rw [flushQueue_wsRef, flushQueue_wsState, flushQueue_reconnectTimers,
          onclose_of_ref_none retry s h1]
      exact ⟨h1, h2, h3⟩
    | reconnect =>
      show (flushQueue (reconnectTimerFire s)).wsRef = none ∧
           (flushQueue (reconnectTimerFire s)).wsState = ConnState.connecting ∧
           (flushQueue (reconnectTimerFire s)).reconnectTimers = []
      rw [flushQueue_wsRef, flushQueue_wsState, flushQueue_reconnectTimers,
          reconnectTimerFire_of_nil s h3]
      exact ⟨h1, h2, h3⟩
    | sendMsg m =>
      show (flushQueue (sendMessage m s)).wsRef = none ∧
           (flushQueue (sendMessage m s)).wsState = ConnState.connecting ∧
           (flushQueue (sendMessage m s)).reconnectTimers = []
      rw [flushQueue_wsRef, flushQueue_wsState, flushQueue_reconnectTimers,
          sendMessage_of_not_open m s hro]
      exact ⟨h1, h2, h3⟩
    | closeWs =>
      show (flushQueue (closeWebSocket s)).wsRef = none ∧
           (flushQueue (closeWebSocket s)).wsState = ConnState.connecting ∧
           (flushQueue (closeWebSocket s)).reconnectTimers = []
      rw [flushQueue_wsRef, flushQueue_wsState, flushQueue_reconnectTimers,
          closeWebSocket_of_ref_none s h1]
      exact ⟨h1, h2, h3⟩

/-- C9: when no connection target is configured, `connectWebSocket` is never
invoked; from activation, any schedule of the remaining operations (sends,
closes, stray socket or timer events) leaves the published connection state at
its initial value connecting, with no handle ever present. -/
theorem c9_http_mode_stuck_connecting (retry : Nat) (evs : List WsEvent)
    (h : WsEvent.connect ∉ evs) :
    (runWs retry evs initWs).wsState = ConnState.connecting ∧
    (runWs retry evs initWs).wsRef = none := by
  have H := runWs_no_connect retry evs initWs ⟨rfl, rfl, rfl⟩ h
  exact ⟨H.2.1, H.1⟩

/-- Witness for C9: a concrete HTTP-mode schedule with a send, a close call
and a stray close event still reports connecting. -/
theorem c9_http_mode_stuck_connecting_witness :
    (runWs 0 [.sendMsg 1, .closeWs, .sockClose] initWs).wsState = ConnState.connecting ∧
    (runWs 0 [.sendMsg 1, .closeWs, .sockClose] initWs).wsRef = none :=
  c9_http_mode_stuck_connecting 0 [.sendMsg 1, .closeWs, .sockClose] (by decide)

theorem closeWebSocket_wsRef_eq_none (s : WsState) : (closeWebSocket s).wsRef = none := by
  unfold closeWebSocket
  split
  · rfl
  · next h =>
    cases ho : s.wsRef with
    | none => rfl
    | some v => rw [ho] at h; simp at h

theorem onclose_wsRef_eq_none (retry : Nat) (s : WsState) : (onclose retry s).wsRef = none := by
  unfold onclose
  split
  · dsimp only
    split <;> rfl
  · next h =>
    cases ho : s.wsRef with
    | none => rfl
    | some v => rw [ho] at h; simp at h

/-- C10: neither `closeWebSocket` nor the close event handler touches the
pending outbound queue; and from a closed state (no handle) with a pending
reconnect timer, the timer firing followed by a successful open flushes the
queued messages in order and clears the queue. -/
theorem c10_close_preserves_queue (retry d : Nat) (rest : List Nat) (s s2 : WsState)
    (h2 : s2.wsRef = none) (h3 : s2.reconnectTimers = d :: rest) :
    (stepWs retry .closeWs s).wsMessagesQueue = s.wsMessagesQueue ∧
    (stepWs retry .sockClose s).wsMessagesQueue = s.wsMessagesQueue ∧
    (runWs retry [.reconnect, .sockOpen] s2).sentLog
      = s2.sentLog ++ s2.wsMessagesQueue.map stringifyMsg ∧
    (runWs retry [.reconnect, .sockOpen] s2).wsMessagesQueue = [] := by
  have hrec : stepWs retry .reconnect s2
      = { s2 with reconnectTimers := rest, wsRef := some SockReady.connecting } := by
    show flushQueue (reconnectTimerFire s2) = _
    unfold reconnectTimerFire
    rw [h3]
    dsimp only
    unfold connectWebSocket
    rw [if_neg, flushQueue_eq_of_ref_ne]
    · simp
    · rw [show ({ s2 with reconnectTimers := rest } : WsState).wsRef = s2.wsRef from rfl, h2]
      simp
  have hopen := flush_on_open retry
      ({ s2 with reconnectTimers := rest, wsRef := some SockReady.connecting }) rfl
  refine ⟨?_, ?_, ?_, ?_⟩
  · show (flushQueue (closeWebSocket s)).wsMessagesQueue = _
    rw [flushQueue_eq_of_ref_ne _ (by rw [closeWebSocket_wsRef_eq_none s]; simp),
        closeWebSocket_wsMessagesQueue]
  · show (flushQueue (onclose retry s)).wsMessagesQueue = _
    rw [flushQueue_eq_of_ref_ne _ (by rw [onclose_wsRef_eq_none retry s]; simp),
        onclose_wsMessagesQueue]
  · show (stepWs retry .sockOpen (stepWs retry .reconnect s2)).sentLog = _
    rw [hrec]
    exact hopen.1
  · show (stepWs retry .sockOpen (stepWs retry .reconnect s2)).wsMessagesQueue = []
    rw [hrec]
    exact hopen.2

/-- Witness for C10: closing the connected state keeps the queue, and a closed
state holding queued messages 4 and 5 with one pending reconnect delivers both
in order, serialized, once the reconnect opens. -/
theorem c10_close_preserves_queue_witness :
    (stepWs 0 .closeWs (runWs 0 [.connect] initWs)).wsMessagesQueue
      = (runWs 0 [.connect] initWs).wsMessagesQueue ∧
    (runWs 0 [.reconnect, .sockOpen]
        { wsRef := none, wsMessagesQueue := [4, 5], reconnectTimers := [1000] }).sentLog
      = [stringifyMsg 4, stringifyMsg 5] ∧
    (runWs 0 [.reconnect, .sockOpen]
        { wsRef := none, wsMessagesQueue := [4, 5], reconnectTimers := [1000] }).wsMessagesQueue
      = [] := by
  have H := c10_close_preserves_queue 0 1000 [] (runWs 0 [.connect] initWs)
      ({ wsRef := none, wsMessagesQueue := [4, 5], reconnectTimers := [1000] }) rfl rfl
  refine ⟨H.1, ?_, H.2.2.2⟩
  rw [H.2.2.1]
  decide

end DataFetcher
